import Mathlib

/-!
Verification development for the Dlynq multi-tenant card API
(src/main.py, src/schemas.py).  Request handlers are shallowly embedded
as pure functions over an explicit document store; each handler returns
its HTTP response (or HTTP error), the updated store, and the trace of
document-store operations it issued.
-/

namespace Dlynq

/-- An HTTPException raised by a handler: status code and detail string. -/
structure HTTPError where
  status : Nat
  detail : String
deriving DecidableEq

/-- TenantContext from main.py: the resolved tenant identifier. -/
structure TenantContext where
  tenant_id : String
deriving DecidableEq

/-- Python truthiness of an `Optional[str]` value: `None` and the empty
string are falsy, every other string is truthy. -/
def strTruthy : Option String → Bool
  | none => false
  | some s => !(s == "")

/-- Python `a or b` on optional strings: `a` when truthy, else `b`. -/
def pyOr (a b : Option String) : Option String :=
  if strTruthy a then a else b

/-- get_tenant from main.py: `tenant_id = x_tenant_id or tenant`; if the
result is falsy, raise HTTP 400, otherwise return the tenant context. -/
def get_tenant (x_tenant_id tenant : Option String) : Except HTTPError TenantContext :=
  let tenant_id := pyOr x_tenant_id tenant
  if strTruthy tenant_id then
    Except.ok ⟨tenant_id.getD ""⟩
  else
    Except.error ⟨400, "tenant_id required via X-Tenant-ID header or ?tenant="⟩

/-- Card status literal from schemas.py (`active`/`archived`/`draft`). -/
inductive CardStatus
  | active
  | archived
  | draft
deriving DecidableEq

/-- User document (schemas.py `User`), with the store-assigned `_id`.
Free-form/unused schema fields not touched by any handler are omitted. -/
structure UserDoc where
  id : Nat
  tenant_id : String
  email : String
  name : String
  password_hash : Option String
  roles : List String
deriving DecidableEq

/-- Organization document (schemas.py `Organization`). -/
structure OrgDoc where
  id : Nat
  tenant_id : String
  name : String
  slug : String
  reseller_id : Option String
deriving DecidableEq

/-- Reseller document (schemas.py `Reseller`). -/
structure ResellerDoc where
  id : Nat
  tenant_id : String
  name : String
  slug : String
  domain : Option String
deriving DecidableEq

/-- DigitalBusinessCard document (schemas.py `DigitalBusinessCard`).
The free-form `Dict[str, Any]` blobs are modelled as string-keyed maps
of string values; handlers never inspect them. -/
structure CardDoc where
  id : Nat
  tenant_id : String
  user_id : String
  org_id : Option String
  slug : String
  status : CardStatus
  profile : List (String × String)
  contact : List (String × String)
  social : List (String × String)
  about : Option String
  design : List (String × String)
  seo : List (String × String)
deriving DecidableEq

/-- ContactLead document (schemas.py `ContactLead`). -/
structure LeadDoc where
  id : Nat
  tenant_id : String
  source_card_id : String
  name : Option String
  email : Option String
  phone : Option String
  company : Option String
  message : Option String
  tags : List String
  status : String
deriving DecidableEq

/-- AnalyticsEvent document (schemas.py `AnalyticsEvent`). -/
structure EventDoc where
  id : Nat
  tenant_id : String
  card_id : Option String
  user_id : Option String
  org_id : Option String
  event_type : String
  metadata : List (String × String)
deriving DecidableEq

/-- The document store: one list per MongoDB collection touched by the
handlers (collection names are the lowercase entity names), plus the
counter from which store-assigned identifiers are drawn. -/
structure Store where
  nextId : Nat
  user : List UserDoc
  organization : List OrgDoc
  reseller : List ResellerDoc
  digitalbusinesscard : List CardDoc
  contactlead : List LeadDoc
  analyticsevent : List EventDoc
deriving DecidableEq

/-- Kind of a document-store operation issued by a handler. -/
inductive OpKind
  | insertOp
  | findOneOp
  | findManyOp
  | countOp
deriving DecidableEq

/-- One document-store operation: its kind, the collection name, and the
tenant identifier the operation filters by or stamps into the document
(`none` would mean the operation carries no tenant identifier). -/
structure StoreOp where
  kind : OpKind
  coll : String
  tenant : Option String
deriving DecidableEq

/-- Result of one handler invocation: the HTTP response or error, the
store after the request, and the trace of store operations issued. -/
structure HResult (α : Type) where
  resp : Except HTTPError α
  store : Store
  ops : List StoreOp

instance {ε α : Type} [DecidableEq ε] [DecidableEq α] : DecidableEq (Except ε α)
  | Except.error a, Except.error b =>
      if h : a = b then isTrue (h ▸ rfl)
      else isFalse (fun hc => h (Except.error.inj hc))
  | Except.error _, Except.ok _ => isFalse (fun hc => Except.noConfusion hc)
  | Except.ok _, Except.error _ => isFalse (fun hc => Except.noConfusion hc)
  | Except.ok a, Except.ok b =>
      if h : a = b then isTrue (h ▸ rfl)
      else isFalse (fun hc => h (Except.ok.inj hc))

instance {α : Type} [DecidableEq α] : DecidableEq (HResult α) := fun a b =>
  decidable_of_iff (a.resp = b.resp ∧ a.store = b.store ∧ a.ops = b.ops)
    (by cases a; cases b; simp)

/-- pymongo `find_one`: the first document of the collection matching
the filter, if any. -/
def findOne {α : Type} (docs : List α) (pred : α → Bool) : Option α :=
  docs.find? pred

/-- pymongo `count_documents`: the number of documents matching the
filter. -/
def countDocs {α : Type} (docs : List α) (pred : α → Bool) : Nat :=
  (docs.filter pred).length

/-- Modelled from the spec: `get_documents` lives in database.py, which
is not under src/; per the spec it returns the documents of the named
collection matching the filter, with a bounded result count (`limit`). -/
def getDocuments {α : Type} (docs : List α) (pred : α → Bool) (limit : Nat) : List α :=
  (docs.filter pred).take limit

/-- Filter dict `{"tenant_id": ctx.tenant_id, "email": body.email}` used
by signup and login on the `user` collection. -/
def userEmailPred (tid email : String) (u : UserDoc) : Bool :=
  decide (u.tenant_id = tid ∧ u.email = email)

/-- Filter dict `{"tenant_id": ctx.tenant_id, "slug": body.slug}` used by
create_card on the `digitalbusinesscard` collection. -/
def cardSlugPred (tid slug : String) (c : CardDoc) : Bool :=
  decide (c.tenant_id = tid ∧ c.slug = slug)

/-- Filter dict with `"status": {"$ne": "archived"}` used by
get_public_card. -/
def cardPublicPred (tid slug : String) (c : CardDoc) : Bool :=
  decide (c.tenant_id = tid ∧ c.slug = slug ∧ c.status ≠ CardStatus.archived)

/-- list_cards filter: always `tenant_id`, plus `user_id` when the query
parameter is truthy (Python `if user_id:`). -/
def cardListPred (tid : String) (user_id : Option String) (c : CardDoc) : Bool :=
  decide (c.tenant_id = tid) &&
    (if strTruthy user_id then decide (c.user_id = user_id.getD "") else true)

/-- list_leads filter: always `tenant_id`, plus `source_card_id` when the
`card_id` query parameter is truthy. -/
def leadListPred (tid : String) (card_id : Option String) (l : LeadDoc) : Bool :=
  decide (l.tenant_id = tid) &&
    (if strTruthy card_id then decide (l.source_card_id = card_id.getD "") else true)

-- ---------- Request bodies ----------

/-- SignupBody from main.py. -/
structure SignupBody where
  email : String
  name : String
  password : String

/-- LoginBody from main.py. -/
structure LoginBody where
  email : String
  password : String

/-- OrgBody from main.py. -/
structure OrgBody where
  name : String
  slug : String
  reseller_id : Option String

/-- ResellerBody from main.py. -/
structure ResellerBody where
  name : String
  slug : String
  domain : Option String

/-- CardCreateBody from main.py. -/
structure CardCreateBody where
  user_id : String
  org_id : Option String
  slug : String
  profile : List (String × String)
  contact : List (String × String)
  social : List (String × String)
  about : Option String
  design : List (String × String)
  seo : List (String × String)

/-- LeadBody from main.py. -/
structure LeadBody where
  source_card_id : String
  name : Option String
  email : Option String
  phone : Option String
  company : Option String
  message : Option String
  tags : List String

/-- EventBody from main.py. -/
structure EventBody where
  card_id : Option String
  user_id : Option String
  org_id : Option String
  event_type : String
  metadata : List (String × String)

-- ---------- Responses ----------

/-- Response of `POST /api/auth/signup`. -/
structure SignupResp where
  user_id : Nat
  token : String
  tenant_id : String
deriving DecidableEq

/-- The `user` object in the login response. -/
structure LoginUserResp where
  email : String
  name : String
deriving DecidableEq

/-- Response of `POST /api/auth/login`. -/
structure LoginResp where
  token : String
  user : LoginUserResp
deriving DecidableEq

/-- Response of `GET /api/analytics/summary`. -/
structure SummaryResp where
  cards : Nat
  leads : Nat
  events : Nat
  recent_events : List EventDoc
deriving DecidableEq

-- ---------- Handlers ----------

/-- signup handler (main.py).  `hash` stands for
`hashlib.sha256(...).hexdigest()`, an external library call.  The
uniqueness check (`find_one`) runs first; on conflict raise 400, else
insert the stamped document (`create_document`, modelled from the spec:
database.py is not under src/ — it inserts the document and returns the
store-assigned identifier). -/
def signup (hash : String → String) (store : Store) (ctx : TenantContext)
    (body : SignupBody) : HResult SignupResp :=
  let pwd_hash := hash body.password
  match findOne store.user (userEmailPred ctx.tenant_id body.email) with
  | some _ =>
      ⟨Except.error ⟨400, "User already exists"⟩, store,
        [⟨OpKind.findOneOp, "user", some ctx.tenant_id⟩]⟩
  | none =>
      let uid := store.nextId
      let doc : UserDoc :=
        ⟨uid, ctx.tenant_id, body.email, body.name, some pwd_hash, ["user"]⟩
      ⟨Except.ok ⟨uid, "demo-" ++ toString uid, ctx.tenant_id⟩,
        { store with user := store.user ++ [doc], nextId := store.nextId + 1 },
        [⟨OpKind.findOneOp, "user", some ctx.tenant_id⟩,
         ⟨OpKind.insertOp, "user", some ctx.tenant_id⟩]⟩

/-- login handler (main.py): find the user by tenant and email; missing
user and hash mismatch both raise the same 401. -/
def login (hash : String → String) (store : Store) (ctx : TenantContext)
    (body : LoginBody) : HResult LoginResp :=
  match findOne store.user (userEmailPred ctx.tenant_id body.email) with
  | none =>
      ⟨Except.error ⟨401, "Invalid credentials"⟩, store,
        [⟨OpKind.findOneOp, "user", some ctx.tenant_id⟩]⟩
  | some u =>
      if u.password_hash ≠ some (hash body.password) then
        ⟨Except.error ⟨401, "Invalid credentials"⟩, store,
          [⟨OpKind.findOneOp, "user", some ctx.tenant_id⟩]⟩
      else
        ⟨Except.ok ⟨"demo-" ++ toString u.id, ⟨u.email, u.name⟩⟩, store,
          [⟨OpKind.findOneOp, "user", some ctx.tenant_id⟩]⟩

/-- create_org handler (main.py): plain stamped insert. -/
def create_org (store : Store) (ctx : TenantContext) (body : OrgBody) : HResult Nat :=
  let doc : OrgDoc := ⟨store.nextId, ctx.tenant_id, body.name, body.slug, body.reseller_id⟩
  ⟨Except.ok store.nextId,
    { store with organization := store.organization ++ [doc], nextId := store.nextId + 1 },
    [⟨OpKind.insertOp, "organization", some ctx.tenant_id⟩]⟩

/-- create_reseller handler (main.py): plain stamped insert. -/
def create_reseller (store : Store) (ctx : TenantContext) (body : ResellerBody) : HResult Nat :=
  let doc : ResellerDoc := ⟨store.nextId, ctx.tenant_id, body.name, body.slug, body.domain⟩
  ⟨Except.ok store.nextId,
    { store with reseller := store.reseller ++ [doc], nextId := store.nextId + 1 },
    [⟨OpKind.insertOp, "reseller", some ctx.tenant_id⟩]⟩

/-- create_card handler (main.py): slug-uniqueness check scoped to the
tenant, then stamped insert with schema default status `active`. -/
def create_card (store : Store) (ctx : TenantContext) (body : CardCreateBody) : HResult Nat :=
  match findOne store.digitalbusinesscard (cardSlugPred ctx.tenant_id body.slug) with
  | some _ =>
      ⟨Except.error ⟨400, "Slug already in use"⟩, store,
        [⟨OpKind.findOneOp, "digitalbusinesscard", some ctx.tenant_id⟩]⟩
  | none =>
      let doc : CardDoc :=
        ⟨store.nextId, ctx.tenant_id, body.user_id, body.org_id, body.slug,
          CardStatus.active, body.profile, body.contact, body.social, body.about,
          body.design, body.seo⟩
      ⟨Except.ok store.nextId,
        { store with digitalbusinesscard := store.digitalbusinesscard ++ [doc],
                     nextId := store.nextId + 1 },
        [⟨OpKind.findOneOp, "digitalbusinesscard", some ctx.tenant_id⟩,
         ⟨OpKind.insertOp, "digitalbusinesscard", some ctx.tenant_id⟩]⟩

/-- list_cards handler (main.py): one bounded find over the tenant's
cards, optionally narrowed by `user_id`. -/
def list_cards (store : Store) (ctx : TenantContext) (user_id : Option String) :
    HResult (List CardDoc) :=
  ⟨Except.ok (getDocuments store.digitalbusinesscard (cardListPred ctx.tenant_id user_id) 100),
    store, [⟨OpKind.findManyOp, "digitalbusinesscard", some ctx.tenant_id⟩]⟩

/-- get_public_card handler (main.py): find_one on tenant + slug with
`status != "archived"`; 404 if no such card. -/
def get_public_card (store : Store) (ctx : TenantContext) (slug : String) : HResult CardDoc :=
  match findOne store.digitalbusinesscard (cardPublicPred ctx.tenant_id slug) with
  | none =>
      ⟨Except.error ⟨404, "Card not found"⟩, store,
        [⟨OpKind.findOneOp, "digitalbusinesscard", some ctx.tenant_id⟩]⟩
  | some c =>
      ⟨Except.ok c, store,
        [⟨OpKind.findOneOp, "digitalbusinesscard", some ctx.tenant_id⟩]⟩

/-- create_lead handler (main.py): plain stamped insert with schema
default status `new`. -/
def create_lead (store : Store) (ctx : TenantContext) (body : LeadBody) : HResult Nat :=
  let doc : LeadDoc :=
    ⟨store.nextId, ctx.tenant_id, body.source_card_id, body.name, body.email,
      body.phone, body.company, body.message, body.tags, "new"⟩
  ⟨Except.ok store.nextId,
    { store with contactlead := store.contactlead ++ [doc], nextId := store.nextId + 1 },
    [⟨OpKind.insertOp, "contactlead", some ctx.tenant_id⟩]⟩

/-- list_leads handler (main.py): one bounded find over the tenant's
leads, optionally narrowed by `card_id`. -/
def list_leads (store : Store) (ctx : TenantContext) (card_id : Option String) :
    HResult (List LeadDoc) :=
  ⟨Except.ok (getDocuments store.contactlead (leadListPred ctx.tenant_id card_id) 200),
    store, [⟨OpKind.findManyOp, "contactlead", some ctx.tenant_id⟩]⟩

/-- track_event handler (main.py): plain stamped insert. -/
def track_event (store : Store) (ctx : TenantContext) (body : EventBody) : HResult Nat :=
  let doc : EventDoc :=
    ⟨store.nextId, ctx.tenant_id, body.card_id, body.user_id, body.org_id,
      body.event_type, body.metadata⟩
  ⟨Except.ok store.nextId,
    { store with analyticsevent := store.analyticsevent ++ [doc], nextId := store.nextId + 1 },
    [⟨OpKind.insertOp, "analyticsevent", some ctx.tenant_id⟩]⟩

/-- Filter dict `{"tenant_id": ctx.tenant_id}` on a card. -/
def cardTenantPred (tid : String) (c : CardDoc) : Bool := decide (c.tenant_id = tid)

/-- Filter dict `{"tenant_id": ctx.tenant_id}` on a lead. -/
def leadTenantPred (tid : String) (l : LeadDoc) : Bool := decide (l.tenant_id = tid)

/-- Filter dict `{"tenant_id": ctx.tenant_id}` on an event. -/
def eventTenantPred (tid : String) (e : EventDoc) : Bool := decide (e.tenant_id = tid)

/-- analytics_summary handler (main.py): three tenant-scoped counts and
one bounded find of recent events. -/
def analytics_summary (store : Store) (ctx : TenantContext) : HResult SummaryResp :=
  let total_cards := countDocs store.digitalbusinesscard (cardTenantPred ctx.tenant_id)
  let total_leads := countDocs store.contactlead (leadTenantPred ctx.tenant_id)
  let total_events := countDocs store.analyticsevent (eventTenantPred ctx.tenant_id)
  let recent_events := getDocuments store.analyticsevent (eventTenantPred ctx.tenant_id) 20
  ⟨Except.ok ⟨total_cards, total_leads, total_events, recent_events⟩, store,
    [⟨OpKind.countOp, "digitalbusinesscard", some ctx.tenant_id⟩,
     ⟨OpKind.countOp, "contactlead", some ctx.tenant_id⟩,
     ⟨OpKind.countOp, "analyticsevent", some ctx.tenant_id⟩,
     ⟨OpKind.findManyOp, "analyticsevent", some ctx.tenant_id⟩]⟩

-- ---------- Endpoints (tenant resolution wrapped around handlers) ----------

/-- FastAPI dependency wiring: resolve the tenant from the header and
query parameter; on failure return the 400 before the handler body (and
hence before any store access); otherwise run the handler. -/
def withTenant {α : Type} (x_tenant_id tenant : Option String) (store : Store)
    (handler : TenantContext → HResult α) : HResult α :=
  match get_tenant x_tenant_id tenant with
  | Except.error e => ⟨Except.error e, store, []⟩
  | Except.ok ctx => handler ctx

/-- `POST /api/auth/signup` endpoint. -/
def signupEndpoint (hash : String → String) (x t : Option String) (store : Store)
    (body : SignupBody) : HResult SignupResp :=
  withTenant x t store (fun ctx => signup hash store ctx body)

/-- `POST /api/auth/login` endpoint. -/
def loginEndpoint (hash : String → String) (x t : Option String) (store : Store)
    (body : LoginBody) : HResult LoginResp :=
  withTenant x t store (fun ctx => login hash store ctx body)

/-- `POST /api/orgs` endpoint. -/
def createOrgEndpoint (x t : Option String) (store : Store) (body : OrgBody) : HResult Nat :=
  withTenant x t store (fun ctx => create_org store ctx body)

/-- `POST /api/resellers` endpoint. -/
def createResellerEndpoint (x t : Option String) (store : Store)
    (body : ResellerBody) : HResult Nat :=
  withTenant x t store (fun ctx => create_reseller store ctx body)

/-- `POST /api/cards` endpoint. -/
def createCardEndpoint (x t : Option String) (store : Store)
    (body : CardCreateBody) : HResult Nat :=
  withTenant x t store (fun ctx => create_card store ctx body)

/-- `GET /api/cards` endpoint. -/
def listCardsEndpoint (x t : Option String) (store : Store)
    (user_id : Option String) : HResult (List CardDoc) :=
  withTenant x t store (fun ctx => list_cards store ctx user_id)

/-- `GET /api/public/cards/slug` endpoint. -/
def publicCardEndpoint (x t : Option String) (store : Store) (slug : String) : HResult CardDoc :=
  withTenant x t store (fun ctx => get_public_card store ctx slug)

/-- `POST /api/leads` endpoint. -/
def createLeadEndpoint (x t : Option String) (store : Store) (body : LeadBody) : HResult Nat :=
  withTenant x t store (fun ctx => create_lead store ctx body)

/-- `GET /api/leads` endpoint. -/
def listLeadsEndpoint (x t : Option String) (store : Store)
    (card_id : Option String) : HResult (List LeadDoc) :=
  withTenant x t store (fun ctx => list_leads store ctx card_id)

/-- `POST /api/events` endpoint. -/
def trackEventEndpoint (x t : Option String) (store : Store) (body : EventBody) : HResult Nat :=
  withTenant x t store (fun ctx => track_event store ctx body)

/-- `GET /api/analytics/summary` endpoint. -/
def summaryEndpoint (x t : Option String) (store : Store) : HResult SummaryResp :=
  withTenant x t store (fun ctx => analytics_summary store ctx)

-- ---------- Sample data for concrete evaluation ----------

/-- A concrete user document under tenant t1. -/
def sampleUser : UserDoc :=
  ⟨1, "t1", "a@b.c", "Ann", some "pw", ["user"]⟩

/-- A concrete active card with slug jane under tenant t1. -/
def sampleCard : CardDoc :=
  ⟨2, "t1", "u1", none, "jane", CardStatus.active, [], [], [], none, [], []⟩

/-- A concrete archived card with slug old under tenant t1. -/
def sampleArchivedCard : CardDoc :=
  ⟨3, "t1", "u1", none, "old", CardStatus.archived, [], [], [], none, [], []⟩

/-- A concrete lead under tenant t1. -/
def sampleLead : LeadDoc :=
  ⟨4, "t1", "c1", none, none, none, none, none, [], "new"⟩

/-- A concrete analytics event under tenant t1. -/
def sampleEvent : EventDoc :=
  ⟨5, "t1", none, none, none, "view", []⟩

/-- A concrete store used to instantiate the theorems: one user, one
active card, one archived card, one lead and one event, all under
tenant t1. -/
def sampleStore : Store :=
  ⟨7, [sampleUser], [], [], [sampleCard, sampleArchivedCard], [sampleLead], [sampleEvent]⟩

/-- An empty store. -/
def emptyStore : Store := ⟨0, [], [], [], [], [], []⟩

-- ---------- Shared lemmas ----------

/-- Any document returned by a bounded find belongs to the collection and
matches the filter. -/
theorem mem_getDocuments {α : Type} {docs : List α} {pred : α → Bool} {limit : Nat}
    {d : α} (h : d ∈ getDocuments docs pred limit) : d ∈ docs ∧ pred d = true := by
  unfold getDocuments at h
  have h1 := List.take_subset limit (docs.filter pred) h
  exact ⟨List.mem_of_mem_filter h1, List.of_mem_filter h1⟩

/-- A bounded find returns at most `limit` documents. -/
theorem length_getDocuments_le {α : Type} (docs : List α) (pred : α → Bool)
    (limit : Nat) : (getDocuments docs pred limit).length ≤ limit := by
  unfold getDocuments
  exact List.length_take_le limit (docs.filter pred)

/-- find_one returns no document exactly when no document matches. -/
theorem findOne_eq_none {α : Type} {docs : List α} {pred : α → Bool} :
    findOne docs pred = none ↔ ∀ d ∈ docs, ¬ pred d = true :=
  List.find?_eq_none

/-- A document returned by find_one belongs to the collection and matches
the filter. -/
theorem findOne_mem {α : Type} {docs : List α} {pred : α → Bool} {d : α}
    (h : findOne docs pred = some d) : d ∈ docs ∧ pred d = true :=
  ⟨List.mem_of_find?_eq_some h, List.find?_some h⟩

/-- If some document matches, find_one returns a document. -/
theorem findOne_isSome {α : Type} {docs : List α} {pred : α → Bool}
    (h : ∃ d ∈ docs, pred d = true) : ∃ d, findOne docs pred = some d := by
  cases hf : findOne docs pred with
  | none =>
      obtain ⟨d, hd, hp⟩ := h
      exact absurd hp (findOne_eq_none.mp hf d hd)
  | some d => exact ⟨d, rfl⟩

-- ---------- Claim theorems ----------

/-- C3: a signup whose email already belongs to a user of the caller's
tenant fails with status 400 (whatever the name and password are) and
leaves the store unchanged; when no user of the caller's tenant has that
email (in particular, when the email exists only under other tenants)
the signup succeeds and returns the user_id/token/tenant_id triple. -/
theorem C3_signup_uniqueness (hash : String → String) (store : Store)
    (ctx : TenantContext) (body : SignupBody) :
    ((∃ u ∈ store.user, u.tenant_id = ctx.tenant_id ∧ u.email = body.email) →
      (signup hash store ctx body).resp = Except.error ⟨400, "User already exists"⟩ ∧
      (signup hash store ctx body).store = store) ∧
    ((∀ u ∈ store.user, ¬(u.tenant_id = ctx.tenant_id ∧ u.email = body.email)) →
      (signup hash store ctx body).resp =
        Except.ok ⟨store.nextId, "demo-" ++ toString store.nextId, ctx.tenant_id⟩) := by
  constructor
  · rintro ⟨u, hu, ht, he⟩
    obtain ⟨v, hv⟩ := @findOne_isSome _ store.user (userEmailPred ctx.tenant_id body.email)
      ⟨u, hu, by simp [userEmailPred, ht, he]⟩
    simp [signup, hv]
  · intro h
    have hf : findOne store.user (userEmailPred ctx.tenant_id body.email) = none := by
      rw [findOne_eq_none]
      intro u hu
      simpa [userEmailPred] using h u hu
    simp [signup, hf]

/-- C3 witness: in a store holding a user with email a at b.c under
tenant t1, a signup for the same email under t1 is rejected with 400 and
the store is unchanged, while the same signup under tenant t2 succeeds. -/
theorem C3_signup_uniqueness_witness :
    ((signup (fun s => s) sampleStore ⟨"t1"⟩ ⟨"a@b.c", "Zoe", "pw"⟩).resp =
        Except.error ⟨400, "User already exists"⟩ ∧
      (signup (fun s => s) sampleStore ⟨"t1"⟩ ⟨"a@b.c", "Zoe", "pw"⟩).store = sampleStore) ∧
    (signup (fun s => s) sampleStore ⟨"t2"⟩ ⟨"a@b.c", "Zoe", "pw"⟩).resp =
      Except.ok ⟨7, "demo-7", "t2"⟩ :=
  ⟨(C3_signup_uniqueness (fun s => s) sampleStore ⟨"t1"⟩ ⟨"a@b.c", "Zoe", "pw"⟩).1
      ⟨sampleUser, by decide, by decide, by decide⟩,
    (C3_signup_uniqueness (fun s => s) sampleStore ⟨"t2"⟩ ⟨"a@b.c", "Zoe", "pw"⟩).2
      (by decide)⟩

/-- C4: a create-card request whose slug already belongs to a card of
the caller's tenant fails with status 400 and leaves the store
unchanged; when no card of the caller's tenant has that slug (in
particular, when the slug exists only under other tenants) the request
succeeds and returns the card_id. -/
theorem C4_card_slug_uniqueness (store : Store) (ctx : TenantContext)
    (body : CardCreateBody) :
    ((∃ c ∈ store.digitalbusinesscard, c.tenant_id = ctx.tenant_id ∧ c.slug = body.slug) →
      (create_card store ctx body).resp = Except.error ⟨400, "Slug already in use"⟩ ∧
      (create_card store ctx body).store = store) ∧
    ((∀ c ∈ store.digitalbusinesscard, ¬(c.tenant_id = ctx.tenant_id ∧ c.slug = body.slug)) →
      (create_card store ctx body).resp = Except.ok store.nextId) := by
  constructor
  · rintro ⟨c, hc, ht, hs⟩
    obtain ⟨v, hv⟩ := @findOne_isSome _ store.digitalbusinesscard
      (cardSlugPred ctx.tenant_id body.slug) ⟨c, hc, by simp [cardSlugPred, ht, hs]⟩
    simp [create_card, hv]
  · intro h
    have hf : findOne store.digitalbusinesscard (cardSlugPred ctx.tenant_id body.slug) = none := by
      rw [findOne_eq_none]
      intro c hc
      simpa [cardSlugPred] using h c hc
    simp [create_card, hf]

/-- C4 witness: in a store holding a card with slug jane under tenant
t1, creating a card with slug jane under t1 is rejected with 400 and the
store is unchanged, while the same request under tenant t2 succeeds. -/
theorem C4_card_slug_uniqueness_witness :
    ((create_card sampleStore ⟨"t1"⟩ ⟨"u9", none, "jane", [], [], [], none, [], []⟩).resp =
        Except.error ⟨400, "Slug already in use"⟩ ∧
      (create_card sampleStore ⟨"t1"⟩ ⟨"u9", none, "jane", [], [], [], none, [], []⟩).store =
        sampleStore) ∧
    (create_card sampleStore ⟨"t2"⟩ ⟨"u9", none, "jane", [], [], [], none, [], []⟩).resp =
      Except.ok 7 :=
  ⟨(C4_card_slug_uniqueness sampleStore ⟨"t1"⟩ ⟨"u9", none, "jane", [], [], [], none, [], []⟩).1
      ⟨sampleCard, by decide, by decide, by decide⟩,
    (C4_card_slug_uniqueness sampleStore ⟨"t2"⟩ ⟨"u9", none, "jane", [], [], [], none, [], []⟩).2
      (by decide)⟩

/-- C5: logging in against a tenant with an email that matches no user
of that tenant, and logging in with an existing email whose stored hash
differs from the hash of the supplied password, produce the identical
401 response with detail Invalid credentials, so the response does not
reveal whether the user exists. -/
theorem C5_login_indistinguishable (hash : String → String) (store : Store)
    (ctx : TenantContext) (body : LoginBody) :
    ((∀ u ∈ store.user, ¬(u.tenant_id = ctx.tenant_id ∧ u.email = body.email)) →
      (login hash store ctx body).resp = Except.error ⟨401, "Invalid credentials"⟩) ∧
    (∀ u, findOne store.user (userEmailPred ctx.tenant_id body.email) = some u →
      u.password_hash ≠ some (hash body.password) →
      (login hash store ctx body).resp = Except.error ⟨401, "Invalid credentials"⟩) ∧
    (∀ (store2 : Store) (ctx2 : TenantContext) (body2 : LoginBody) (u : UserDoc),
      (∀ v ∈ store.user, ¬(v.tenant_id = ctx.tenant_id ∧ v.email = body.email)) →
      findOne store2.user (userEmailPred ctx2.tenant_id body2.email) = some u →
      u.password_hash ≠ some (hash body2.password) →
      (login hash store ctx body).resp = (login hash store2 ctx2 body2).resp) := by
  have missing : ∀ s : Store, ∀ c : TenantContext, ∀ b : LoginBody,
      (∀ u ∈ s.user, ¬(u.tenant_id = c.tenant_id ∧ u.email = b.email)) →
      (login hash s c b).resp = Except.error ⟨401, "Invalid credentials"⟩ := by
    intro s c b h
    have hf : findOne s.user (userEmailPred c.tenant_id b.email) = none := by
      rw [findOne_eq_none]
      intro u hu
      simpa [userEmailPred] using h u hu
    simp [login, hf]
  have wrong : ∀ s : Store, ∀ c : TenantContext, ∀ b : LoginBody, ∀ u : UserDoc,
      findOne s.user (userEmailPred c.tenant_id b.email) = some u →
      u.password_hash ≠ some (hash b.password) →
      (login hash s c b).resp = Except.error ⟨401, "Invalid credentials"⟩ := by
    intro s c b u hu hne
    simp [login, hu, hne]
  exact ⟨missing store ctx body,
    fun u hu hne => wrong store ctx body u hu hne,
    fun store2 ctx2 body2 u h1 h2 hne =>
      (missing store ctx body h1).trans (wrong store2 ctx2 body2 u h2 hne).symm⟩

/-- C5 witness: under tenant t2 the sample store has no user with email
a at b.c, and under tenant t1 that email exists but the stored hash pw
differs from the hash of the supplied password bad; both logins return
the same 401 Invalid credentials response. -/
theorem C5_login_indistinguishable_witness :
    ((login (fun s => s) sampleStore ⟨"t2"⟩ ⟨"a@b.c", "bad"⟩).resp =
        Except.error ⟨401, "Invalid credentials"⟩) ∧
    ((login (fun s => s) sampleStore ⟨"t1"⟩ ⟨"a@b.c", "bad"⟩).resp =
        Except.error ⟨401, "Invalid credentials"⟩) ∧
    (login (fun s => s) sampleStore ⟨"t2"⟩ ⟨"a@b.c", "bad"⟩).resp =
      (login (fun s => s) sampleStore ⟨"t1"⟩ ⟨"a@b.c", "bad"⟩).resp :=
  ⟨(C5_login_indistinguishable (fun s => s) sampleStore ⟨"t2"⟩ ⟨"a@b.c", "bad"⟩).1
      (by decide),
    (C5_login_indistinguishable (fun s => s) sampleStore ⟨"t1"⟩ ⟨"a@b.c", "bad"⟩).2.1
      sampleUser (by decide) (by decide),
    (C5_login_indistinguishable (fun s => s) sampleStore ⟨"t2"⟩ ⟨"a@b.c", "bad"⟩).2.2
      sampleStore ⟨"t1"⟩ ⟨"a@b.c", "bad"⟩ sampleUser (by decide) (by decide) (by decide)⟩

/-- C6: the public card lookup returns 404 exactly when no non-archived
card of the caller's tenant has the requested slug, and any card it
returns belongs to the tenant, carries the requested slug, and is not
archived. -/
theorem C6_public_card_excludes_archived (store : Store) (ctx : TenantContext)
    (slug : String) :
    ((get_public_card store ctx slug).resp = Except.error ⟨404, "Card not found"⟩ ↔
      ∀ c ∈ store.digitalbusinesscard,
        ¬(c.tenant_id = ctx.tenant_id ∧ c.slug = slug ∧ c.status ≠ CardStatus.archived)) ∧
    (∀ c, (get_public_card store ctx slug).resp = Except.ok c →
      c ∈ store.digitalbusinesscard ∧ c.tenant_id = ctx.tenant_id ∧ c.slug = slug ∧
        c.status ≠ CardStatus.archived) := by
  constructor
  · cases hf : findOne store.digitalbusinesscard (cardPublicPred ctx.tenant_id slug) with
    | none =>
        simp only [get_public_card, hf, true_iff]
        intro c hc
        simpa [cardPublicPred] using findOne_eq_none.mp hf c hc
    | some c =>
        obtain ⟨hmem, hp⟩ := findOne_mem hf
        simp only [get_public_card, hf]
        constructor
        · intro h
          exact absurd h (by simp)
        · intro h
          exact absurd (by simpa [cardPublicPred] using hp) (h c hmem)
  · intro c h
    cases hf : findOne store.digitalbusinesscard (cardPublicPred ctx.tenant_id slug) with
    | none => simp [get_public_card, hf] at h
    | some d =>
        simp only [get_public_card, hf, Except.ok.injEq] at h
        subst h
        obtain ⟨hmem, hp⟩ := findOne_mem hf
        exact ⟨hmem, by simpa [cardPublicPred] using hp⟩

/-- C6 witness: in the sample store the slug old matches only an
archived card under tenant t1, so the public lookup returns 404, while
the slug jane matches the active sample card, which the lookup returns. -/
theorem C6_public_card_excludes_archived_witness :
    ((get_public_card sampleStore ⟨"t1"⟩ "old").resp =
        Except.error ⟨404, "Card not found"⟩) ∧
    (sampleCard ∈ sampleStore.digitalbusinesscard ∧ sampleCard.tenant_id = "t1" ∧
      sampleCard.slug = "jane" ∧ sampleCard.status ≠ CardStatus.archived) :=
  ⟨(C6_public_card_excludes_archived sampleStore ⟨"t1"⟩ "old").1.mpr (by decide),
    (C6_public_card_excludes_archived sampleStore ⟨"t1"⟩ "jane").2 sampleCard (by decide)⟩

/-- C7 counterexample: the analytics summary handler issues four store
operations (three counts and one find), not exactly one, refuting the
claim that every handler issues exactly one store operation. -/
theorem C7_counterexample :
    (analytics_summary emptyStore ⟨"t1"⟩).ops.length ≠ 1 := by decide

/-- C7 amended: each handler issues a fixed bounded trace of store
operations: login, the two plain creates, the lead/event creates, the
two listings and the public lookup each issue exactly one; signup and
create-card issue one (on conflict) or two (check then insert);
analytics summary issues four. -/
theorem C7_store_ops_per_handler (hash : String → String) (store : Store)
    (ctx : TenantContext) (sb : SignupBody) (lb : LoginBody) (ob : OrgBody)
    (rb : ResellerBody) (cb : CardCreateBody) (ldb : LeadBody) (eb : EventBody)
    (user_id card_id : Option String) (slug : String) :
    (login hash store ctx lb).ops.length = 1 ∧
    (create_org store ctx ob).ops.length = 1 ∧
    (create_reseller store ctx rb).ops.length = 1 ∧
    (list_cards store ctx user_id).ops.length = 1 ∧
    (get_public_card store ctx slug).ops.length = 1 ∧
    (create_lead store ctx ldb).ops.length = 1 ∧
    (list_leads store ctx card_id).ops.length = 1 ∧
    (track_event store ctx eb).ops.length = 1 ∧
    ((signup hash store ctx sb).ops.length = 1 ∨
      (signup hash store ctx sb).ops.length = 2) ∧
    ((create_card store ctx cb).ops.length = 1 ∨
      (create_card store ctx cb).ops.length = 2) ∧
    (analytics_summary store ctx).ops.length = 4 := by
  refine ⟨?_, rfl, rfl, rfl, ?_, rfl, rfl, rfl, ?_, ?_, rfl⟩
  · cases hf : findOne store.user (userEmailPred ctx.tenant_id lb.email) with
    | none => simp [login, hf]
    | some u =>
        by_cases hp : u.password_hash ≠ some (hash lb.password) <;> simp [login, hf, hp]
  · cases hf : findOne store.digitalbusinesscard (cardPublicPred ctx.tenant_id slug) with
    | none => simp [get_public_card, hf]
    | some c => simp [get_public_card, hf]
  · cases hf : findOne store.user (userEmailPred ctx.tenant_id sb.email) with
    | none => right; simp [signup, hf]
    | some u => left; simp [signup, hf]
  · cases hf : findOne store.digitalbusinesscard (cardSlugPred ctx.tenant_id cb.slug) with
    | none => right; simp [create_card, hf]
    | some c => left; simp [create_card, hf]

/-- C8: list cards returns at most 100 documents, list leads at most
200, and the analytics summary at most 20 recent events, for every store
and every value of the optional query parameters. -/
theorem C8_fixed_result_caps (store : Store) (ctx : TenantContext)
    (user_id card_id : Option String) :
    (∀ items, (list_cards store ctx user_id).resp = Except.ok items →
      items.length ≤ 100) ∧
    (∀ items, (list_leads store ctx card_id).resp = Except.ok items →
      items.length ≤ 200) ∧
    (∀ summary, (analytics_summary store ctx).resp = Except.ok summary →
      summary.recent_events.length ≤ 20) := by
  refine ⟨?_, ?_, ?_⟩
  · intro items h
    simp only [list_cards, Except.ok.injEq] at h
    subst h
    exact length_getDocuments_le _ _ _
  · intro items h
    simp only [list_leads, Except.ok.injEq] at h
    subst h
    exact length_getDocuments_le _ _ _
  · intro summary h
    simp only [analytics_summary, Except.ok.injEq] at h
    subst h
    exact length_getDocuments_le _ _ _

/-- C8 witness: on the sample store under tenant t1 the three caps hold
for the concrete responses. -/
theorem C8_fixed_result_caps_witness :
    ((list_cards sampleStore ⟨"t1"⟩ none).resp = Except.ok [sampleCard, sampleArchivedCard] ∧
      [sampleCard, sampleArchivedCard].length ≤ 100) ∧
    ((list_leads sampleStore ⟨"t1"⟩ none).resp = Except.ok [sampleLead] ∧
      [sampleLead].length ≤ 200) ∧
    ((analytics_summary sampleStore ⟨"t1"⟩).resp = Except.ok ⟨2, 1, 1, [sampleEvent]⟩ ∧
      [sampleEvent].length ≤ 20) :=
  ⟨⟨by decide, (C8_fixed_result_caps sampleStore ⟨"t1"⟩ none none).1
      [sampleCard, sampleArchivedCard] (by decide)⟩,
    ⟨by decide, (C8_fixed_result_caps sampleStore ⟨"t1"⟩ none none).2.1
      [sampleLead] (by decide)⟩,
    ⟨by decide, (C8_fixed_result_caps sampleStore ⟨"t1"⟩ none none).2.2
      ⟨2, 1, 1, [sampleEvent]⟩ (by decide)⟩⟩

/-- C10: supplying the optional query parameter as the empty string
(user_id for list cards, card_id for list leads) yields exactly the
request result obtained with the parameter absent: the extra filter
field is not added. -/
theorem C10_empty_string_means_absent (store : Store) (ctx : TenantContext) :
    list_cards store ctx (some "") = list_cards store ctx none ∧
    list_leads store ctx (some "") = list_leads store ctx none :=
  ⟨rfl, rfl⟩

/-- C1: tenant isolation. The listing endpoints and the analytics
summary return only documents whose tenant_id is the caller's resolved
tenant identifier; every store operation issued by every handler carries
the caller's tenant identifier as its filter or stamp; and every
document added to the store by an insert handler is stamped with the
caller's tenant identifier. -/
theorem C1_tenant_isolation (hash : String → String) (store : Store)
    (ctx : TenantContext) (sb : SignupBody) (lb : LoginBody) (ob : OrgBody)
    (rb : ResellerBody) (cb : CardCreateBody) (ldb : LeadBody) (eb : EventBody)
    (user_id card_id : Option String) (slug : String) :
    (∀ items, (list_cards store ctx user_id).resp = Except.ok items →
      ∀ c ∈ items, c.tenant_id = ctx.tenant_id) ∧
    (∀ items, (list_leads store ctx card_id).resp = Except.ok items →
      ∀ l ∈ items, l.tenant_id = ctx.tenant_id) ∧
    (∀ summary, (analytics_summary store ctx).resp = Except.ok summary →
      ∀ e ∈ summary.recent_events, e.tenant_id = ctx.tenant_id) ∧
    (∀ op ∈ (signup hash store ctx sb).ops, op.tenant = some ctx.tenant_id) ∧
    (∀ op ∈ (login hash store ctx lb).ops, op.tenant = some ctx.tenant_id) ∧
    (∀ op ∈ (create_org store ctx ob).ops, op.tenant = some ctx.tenant_id) ∧
    (∀ op ∈ (create_reseller store ctx rb).ops, op.tenant = some ctx.tenant_id) ∧
    (∀ op ∈ (create_card store ctx cb).ops, op.tenant = some ctx.tenant_id) ∧
    (∀ op ∈ (list_cards store ctx user_id).ops, op.tenant = some ctx.tenant_id) ∧
    (∀ op ∈ (get_public_card store ctx slug).ops, op.tenant = some ctx.tenant_id) ∧
    (∀ op ∈ (create_lead store ctx ldb).ops, op.tenant = some ctx.tenant_id) ∧
    (∀ op ∈ (list_leads store ctx card_id).ops, op.tenant = some ctx.tenant_id) ∧
    (∀ op ∈ (track_event store ctx eb).ops, op.tenant = some ctx.tenant_id) ∧
    (∀ op ∈ (analytics_summary store ctx).ops, op.tenant = some ctx.tenant_id) ∧
    (∀ u ∈ (signup hash store ctx sb).store.user,
      u ∈ store.user ∨ u.tenant_id = ctx.tenant_id) ∧
    (∀ o ∈ (create_org store ctx ob).store.organization,
      o ∈ store.organization ∨ o.tenant_id = ctx.tenant_id) ∧
    (∀ r ∈ (create_reseller store ctx rb).store.reseller,
      r ∈ store.reseller ∨ r.tenant_id = ctx.tenant_id) ∧
    (∀ c ∈ (create_card store ctx cb).store.digitalbusinesscard,
      c ∈ store.digitalbusinesscard ∨ c.tenant_id = ctx.tenant_id) ∧
    (∀ l ∈ (create_lead store ctx ldb).store.contactlead,
      l ∈ store.contactlead ∨ l.tenant_id = ctx.tenant_id) ∧
    (∀ e ∈ (track_event store ctx eb).store.analyticsevent,
      e ∈ store.analyticsevent ∨ e.tenant_id = ctx.tenant_id) := by
  refine ⟨?_, ?_, ?_, ?_, ?_, ?_, ?_, ?_, ?_, ?_, ?_, ?_, ?_, ?_, ?_, ?_, ?_, ?_, ?_, ?_⟩
  · intro items h
    simp only [list_cards, Except.ok.injEq] at h
    subst h
    intro c hc
    have hp := (mem_getDocuments hc).2
    unfold cardListPred at hp
    exact of_decide_eq_true ((Bool.and_eq_true _ _).mp hp).1
  · intro items h
    simp only [list_leads, Except.ok.injEq] at h
    subst h
    intro l hl
    have hp := (mem_getDocuments hl).2
    unfold leadListPred at hp
    exact of_decide_eq_true ((Bool.and_eq_true _ _).mp hp).1
  · intro summary h
    simp only [analytics_summary, Except.ok.injEq] at h
    subst h
    intro e he
    have hp := (mem_getDocuments he).2
    unfold eventTenantPred at hp
    exact of_decide_eq_true hp
  · cases hf : findOne store.user (userEmailPred ctx.tenant_id sb.email) <;>
      simp [signup, hf]
  · cases hf : findOne store.user (userEmailPred ctx.tenant_id lb.email) with
    | none => simp [login, hf]
    | some u =>
        by_cases hp : u.password_hash ≠ some (hash lb.password) <;> simp [login, hf, hp]
  · simp [create_org]
  · simp [create_reseller]
  · cases hf : findOne store.digitalbusinesscard (cardSlugPred ctx.tenant_id cb.slug) <;>
      simp [create_card, hf]
  · simp [list_cards]
  · cases hf : findOne store.digitalbusinesscard (cardPublicPred ctx.tenant_id slug) <;>
      simp [get_public_card, hf]
  · simp [create_lead]
  · simp [list_leads]
  · simp [track_event]
  · simp [analytics_summary]
  · intro u hu
    cases hf : findOne store.user (userEmailPred ctx.tenant_id sb.email) with
    | some v =>
        simp only [signup, hf] at hu
        exact Or.inl hu
    | none =>
        simp only [signup, hf, List.mem_append, List.mem_singleton] at hu
        rcases hu with hu | rfl
        · exact Or.inl hu
        · exact Or.inr rfl
  · intro o ho
    simp only [create_org, List.mem_append, List.mem_singleton] at ho
    rcases ho with ho | rfl
    · exact Or.inl ho
    · exact Or.inr rfl
  · intro r hr
    simp only [create_reseller, List.mem_append, List.mem_singleton] at hr
    rcases hr with hr | rfl
    · exact Or.inl hr
    · exact Or.inr rfl
  · intro c hc
    cases hf : findOne store.digitalbusinesscard (cardSlugPred ctx.tenant_id cb.slug) with
    | some v =>
        simp only [create_card, hf] at hc
        exact Or.inl hc
    | none =>
        simp only [create_card, hf, List.mem_append, List.mem_singleton] at hc
        rcases hc with hc | rfl
        · exact Or.inl hc
        · exact Or.inr rfl
  · intro l hl
    simp only [create_lead, List.mem_append, List.mem_singleton] at hl
    rcases hl with hl | rfl
    · exact Or.inl hl
    · exact Or.inr rfl
  · intro e he
    simp only [track_event, List.mem_append, List.mem_singleton] at he
    rcases he with he | rfl
    · exact Or.inl he
    · exact Or.inr rfl

/-- C1 witness: on the sample store under tenant t1, the first card
returned by list cards carries tenant t1, and the single operation
issued by list cards filters by tenant t1. -/
theorem C1_tenant_isolation_witness :
    ((list_cards sampleStore ⟨"t1"⟩ none).resp =
        Except.ok [sampleCard, sampleArchivedCard] ∧
      sampleCard.tenant_id = "t1") ∧
    (StoreOp.mk OpKind.findManyOp "digitalbusinesscard" (some "t1")).tenant = some "t1" :=
  ⟨⟨by decide,
      (C1_tenant_isolation (fun s => s) sampleStore ⟨"t1"⟩ ⟨"a@b.c", "n", "p"⟩
        ⟨"a@b.c", "p"⟩ ⟨"o", "o", none⟩ ⟨"r", "r", none⟩ ⟨"u9", none, "s", [], [], [], none, [], []⟩
        ⟨"c1", none, none, none, none, none, []⟩ ⟨none, none, none, "view", []⟩
        none none "jane").1 [sampleCard, sampleArchivedCard] (by decide) sampleCard
        (by decide)⟩,
    (C1_tenant_isolation (fun s => s) sampleStore ⟨"t1"⟩ ⟨"a@b.c", "n", "p"⟩
        ⟨"a@b.c", "p"⟩ ⟨"o", "o", none⟩ ⟨"r", "r", none⟩ ⟨"u9", none, "s", [], [], [], none, [], []⟩
        ⟨"c1", none, none, none, none, none, []⟩ ⟨none, none, none, "view", []⟩
        none none "jane").2.2.2.2.2.2.2.2.1
      (StoreOp.mk OpKind.findManyOp "digitalbusinesscard" (some "t1")) (by decide)⟩

/-- C2: tenant resolution. A nonempty X-Tenant-ID header value resolves
to itself whatever the query parameter holds (header precedence); with
no header, a nonempty tenant query parameter resolves to itself; and
when both are absent every tenant-scoped endpoint returns the same 400
error, leaves the store unchanged, and issues no store operation. -/
theorem C2_tenant_resolution (hash : String → String) (store : Store)
    (q : Option String) (hv tv : String) (sb : SignupBody) (lb : LoginBody)
    (ob : OrgBody) (rb : ResellerBody) (cb : CardCreateBody) (ldb : LeadBody)
    (eb : EventBody) (user_id card_id : Option String) (slug : String) :
    (hv ≠ "" → get_tenant (some hv) q = Except.ok ⟨hv⟩) ∧
    (tv ≠ "" → get_tenant none (some tv) = Except.ok ⟨tv⟩) ∧
    (get_tenant none none =
      Except.error ⟨400, "tenant_id required via X-Tenant-ID header or ?tenant="⟩) ∧
    (signupEndpoint hash none none store sb =
      ⟨Except.error ⟨400, "tenant_id required via X-Tenant-ID header or ?tenant="⟩, store, []⟩) ∧
    (loginEndpoint hash none none store lb =
      ⟨Except.error ⟨400, "tenant_id required via X-Tenant-ID header or ?tenant="⟩, store, []⟩) ∧
    (createOrgEndpoint none none store ob =
      ⟨Except.error ⟨400, "tenant_id required via X-Tenant-ID header or ?tenant="⟩, store, []⟩) ∧
    (createResellerEndpoint none none store rb =
      ⟨Except.error ⟨400, "tenant_id required via X-Tenant-ID header or ?tenant="⟩, store, []⟩) ∧
    (createCardEndpoint none none store cb =
      ⟨Except.error ⟨400, "tenant_id required via X-Tenant-ID header or ?tenant="⟩, store, []⟩) ∧
    (listCardsEndpoint none none store user_id =
      ⟨Except.error ⟨400, "tenant_id required via X-Tenant-ID header or ?tenant="⟩, store, []⟩) ∧
    (publicCardEndpoint none none store slug =
      ⟨Except.error ⟨400, "tenant_id required via X-Tenant-ID header or ?tenant="⟩, store, []⟩) ∧
    (createLeadEndpoint none none store ldb =
      ⟨Except.error ⟨400, "tenant_id required via X-Tenant-ID header or ?tenant="⟩, store, []⟩) ∧
    (listLeadsEndpoint none none store card_id =
      ⟨Except.error ⟨400, "tenant_id required via X-Tenant-ID header or ?tenant="⟩, store, []⟩) ∧
    (trackEventEndpoint none none store eb =
      ⟨Except.error ⟨400, "tenant_id required via X-Tenant-ID header or ?tenant="⟩, store, []⟩) ∧
    (summaryEndpoint none none store =
      ⟨Except.error ⟨400, "tenant_id required via X-Tenant-ID header or ?tenant="⟩, store, []⟩) := by
  refine ⟨?_, ?_, rfl, rfl, rfl, rfl, rfl, rfl, rfl, rfl, rfl, rfl, rfl, rfl⟩
  · intro h
    have ht : strTruthy (some hv) = true := by simp [strTruthy, h]
    simp [get_tenant, pyOr, ht]
  · intro h
    have ht : strTruthy (some tv) = true := by simp [strTruthy, h]
    have hn : pyOr none (some tv) = some tv := rfl
    simp [get_tenant, hn, ht]

/-- C2 witness: the header value h1 wins over the query value t9; with
no header the query value t1 is used; with neither, the signup endpoint
returns the 400 error, keeps the sample store unchanged, and issues no
store operation. -/
theorem C2_tenant_resolution_witness :
    ("h1" ≠ "" ∧ get_tenant (some "h1") (some "t9") = Except.ok ⟨"h1"⟩) ∧
    ("t1" ≠ "" ∧ get_tenant none (some "t1") = Except.ok ⟨"t1"⟩) ∧
    (signupEndpoint (fun s => s) none none sampleStore ⟨"a@b.c", "n", "p"⟩ =
      ⟨Except.error ⟨400, "tenant_id required via X-Tenant-ID header or ?tenant="⟩,
        sampleStore, []⟩) :=
  ⟨⟨by decide,
      (C2_tenant_resolution (fun s => s) sampleStore (some "t9") "h1" "t1"
        ⟨"a@b.c", "n", "p"⟩ ⟨"a@b.c", "p"⟩ ⟨"o", "o", none⟩ ⟨"r", "r", none⟩
        ⟨"u9", none, "s", [], [], [], none, [], []⟩
        ⟨"c1", none, none, none, none, none, []⟩ ⟨none, none, none, "view", []⟩
        none none "jane").1 (by decide)⟩,
    ⟨by decide,
      (C2_tenant_resolution (fun s => s) sampleStore (some "t9") "h1" "t1"
        ⟨"a@b.c", "n", "p"⟩ ⟨"a@b.c", "p"⟩ ⟨"o", "o", none⟩ ⟨"r", "r", none⟩
        ⟨"u9", none, "s", [], [], [], none, [], []⟩
        ⟨"c1", none, none, none, none, none, []⟩ ⟨none, none, none, "view", []⟩
        none none "jane").2.1 (by decide)⟩,
    (C2_tenant_resolution (fun s => s) sampleStore (some "t9") "h1" "t1"
        ⟨"a@b.c", "n", "p"⟩ ⟨"a@b.c", "p"⟩ ⟨"o", "o", none⟩ ⟨"r", "r", none⟩
        ⟨"u9", none, "s", [], [], [], none, [], []⟩
        ⟨"c1", none, none, none, none, none, []⟩ ⟨none, none, none, "view", []⟩
        none none "jane").2.2.2.1⟩

/-- C9: the create-card uniqueness check matches cards of every status:
any existing card of the tenant with the requested slug (archived or
draft included) makes create-card fail with 400 and leave the store
unchanged; when every such card is archived, the public lookup on that
slug simultaneously returns 404; and no handler ever removes a card
from the store, so an archived card blocks its slug forever within its
tenant. -/
theorem C9_conflict_matches_every_status (hash : String → String) (store : Store)
    (ctx : TenantContext) (sb : SignupBody) (lb : LoginBody) (ob : OrgBody)
    (rb : ResellerBody) (cb : CardCreateBody) (ldb : LeadBody) (eb : EventBody)
    (user_id card_id : Option String) (slug : String) :
    ((∃ c ∈ store.digitalbusinesscard, c.tenant_id = ctx.tenant_id ∧ c.slug = cb.slug) →
      (create_card store ctx cb).resp = Except.error ⟨400, "Slug already in use"⟩ ∧
      (create_card store ctx cb).store = store) ∧
    ((∃ c ∈ store.digitalbusinesscard, c.tenant_id = ctx.tenant_id ∧ c.slug = cb.slug) →
      (∀ c ∈ store.digitalbusinesscard, c.tenant_id = ctx.tenant_id → c.slug = cb.slug →
        c.status = CardStatus.archived) →
      (get_public_card store ctx cb.slug).resp = Except.error ⟨404, "Card not found"⟩) ∧
    (∀ c ∈ store.digitalbusinesscard,
      c ∈ (signup hash store ctx sb).store.digitalbusinesscard ∧
      c ∈ (login hash store ctx lb).store.digitalbusinesscard ∧
      c ∈ (create_org store ctx ob).store.digitalbusinesscard ∧
      c ∈ (create_reseller store ctx rb).store.digitalbusinesscard ∧
      c ∈ (create_card store ctx cb).store.digitalbusinesscard ∧
      c ∈ (list_cards store ctx user_id).store.digitalbusinesscard ∧
      c ∈ (get_public_card store ctx slug).store.digitalbusinesscard ∧
      c ∈ (create_lead store ctx ldb).store.digitalbusinesscard ∧
      c ∈ (list_leads store ctx card_id).store.digitalbusinesscard ∧
      c ∈ (track_event store ctx eb).store.digitalbusinesscard ∧
      c ∈ (analytics_summary store ctx).store.digitalbusinesscard) := by
  refine ⟨(C4_card_slug_uniqueness store ctx cb).1, ?_, ?_⟩
  · rintro ⟨c, hc, ht, hs⟩ hall
    have hf : findOne store.digitalbusinesscard (cardPublicPred ctx.tenant_id cb.slug) = none := by
      rw [findOne_eq_none]
      intro d hd
      unfold cardPublicPred
      simp only [decide_eq_true_eq, not_and, ne_eq, not_not]
      intro h1 h2
      exact hall d hd h1 h2
    simp [get_public_card, hf]
  · intro c hc
    refine ⟨?_, ?_, hc, hc, ?_, hc, ?_, hc, hc, hc, hc⟩
    · cases hf : findOne store.user (userEmailPred ctx.tenant_id sb.email) <;>
        simp only [signup, hf] <;> exact hc
    · cases hf : findOne store.user (userEmailPred ctx.tenant_id lb.email) with
      | none =>
          simp only [login, hf]
          exact hc
      | some u =>
          simp only [login, hf]
          split <;> exact hc
    · cases hf : findOne store.digitalbusinesscard (cardSlugPred ctx.tenant_id cb.slug) with
      | none =>
          simp only [create_card, hf]
          exact List.mem_append_left _ hc
      | some v =>
          simp only [create_card, hf]
          exact hc
    · cases hf : findOne store.digitalbusinesscard (cardPublicPred ctx.tenant_id slug) <;>
        simp only [get_public_card, hf] <;> exact hc

/-- C9 witness: in the sample store the slug old belongs only to the
archived sample card under tenant t1; creating a card with slug old
under t1 is rejected with 400 with the store unchanged, the public
lookup of old returns 404, and the archived card survives a create-card
request for a different slug. -/
theorem C9_conflict_matches_every_status_witness :
    ((create_card sampleStore ⟨"t1"⟩ ⟨"u9", none, "old", [], [], [], none, [], []⟩).resp =
        Except.error ⟨400, "Slug already in use"⟩ ∧
      (create_card sampleStore ⟨"t1"⟩ ⟨"u9", none, "old", [], [], [], none, [], []⟩).store =
        sampleStore) ∧
    ((get_public_card sampleStore ⟨"t1"⟩ "old").resp =
        Except.error ⟨404, "Card not found"⟩) ∧
    sampleArchivedCard ∈
      (create_card sampleStore ⟨"t1"⟩
        ⟨"u9", none, "fresh", [], [], [], none, [], []⟩).store.digitalbusinesscard := by
  have h := C9_conflict_matches_every_status (fun s => s) sampleStore ⟨"t1"⟩
    ⟨"a@b.c", "n", "p"⟩ ⟨"a@b.c", "p"⟩ ⟨"o", "o", none⟩ ⟨"r", "r", none⟩
    ⟨"u9", none, "old", [], [], [], none, [], []⟩
    ⟨"c1", none, none, none, none, none, []⟩ ⟨none, none, none, "view", []⟩
    none none "jane"
  have h2 := C9_conflict_matches_every_status (fun s => s) sampleStore ⟨"t1"⟩
    ⟨"a@b.c", "n", "p"⟩ ⟨"a@b.c", "p"⟩ ⟨"o", "o", none⟩ ⟨"r", "r", none⟩
    ⟨"u9", none, "fresh", [], [], [], none, [], []⟩
    ⟨"c1", none, none, none, none, none, []⟩ ⟨none, none, none, "view", []⟩
    none none "jane"
  exact ⟨h.1 ⟨sampleArchivedCard, by decide, by decide, by decide⟩,
    h.2.1 ⟨sampleArchivedCard, by decide, by decide, by decide⟩ (by decide),
    (h2.2.2 sampleArchivedCard (by decide)).2.2.2.2.1⟩

end Dlynq
